import Mathlib

set_option maxRecDepth 8000

/-!
Verification development for the collectd openvpn plugin
(src/openvpn.c).  The status-file parsers are modelled as pure
functions over the list of lines delivered by the line reader; a
stream is the list of lines successfully read before the reader
returns end-of-input, together with a flag telling whether that
end was caused by a read error (the ferror indicator).  Counter
values (derive_t, a signed 64-bit integer) are modelled as
integers wrapped to the 64-bit two-complement range.
-/

namespace Collectd

/-- Wrap an integer into the signed 64-bit range, as two-complement
arithmetic on the derive_t counter type does. -/
def wrap64 (x : Int) : Int := (x + 2 ^ 63) % 2 ^ 64 - 2 ^ 63

/-- 64-bit addition on derive_t values. -/
def add64 (a b : Int) : Int := wrap64 (a + b)

/-- 64-bit subtraction on derive_t values. -/
def sub64 (a b : Int) : Int := wrap64 (a - b)

/-- The delimiter set of openvpn_strsplit: comma and horizontal tab. -/
def isDelim (c : Char) : Bool := c = ',' || c = '\t'

/-- The strtok_r loop inside openvpn_strsplit, at character level:
delimiters separate tokens, runs of adjacent delimiters produce no
empty tokens, and a token in progress is emitted when the line ends.
The accumulator holds the reversed token currently being read. -/
def strtokGo : List Char → List Char → List (List Char)
  | [], cur => if cur.isEmpty then [] else [cur.reverse]
  | c :: cs, cur =>
    if isDelim c then
      (if cur.isEmpty then strtokGo cs [] else cur.reverse :: strtokGo cs [])
    else strtokGo cs (c :: cur)

/-- All tokens of a line, in order (strtok_r called to exhaustion). -/
def strtok_all (l : List Char) : List (List Char) := strtokGo l []

/-- openvpn_strsplit: split the line on commas and tabs and keep at
most n fields; text beyond the n-th token is discarded. -/
def openvpn_strsplit (s : String) (n : Nat) : List String :=
  ((strtok_all s.data).take n).map (fun t => String.mk t)

/-- The characters accepted by isspace in the C locale, skipped by
atoll before the number. -/
def isSpaceC (c : Char) : Bool :=
  c = ' ' || c = '\t' || c = '\n' ||
    c = Char.ofNat 11 || c = Char.ofNat 12 || c = Char.ofNat 13

/-- Value of a list of decimal digit characters. -/
def digitsVal (l : List Char) : Int :=
  l.foldl (fun a c => a * 10 + ((c.toNat : Int) - 48)) 0

/-- atoll as used on the byte-counter fields: skip leading white
space, accept an optional sign, convert the longest leading run of
decimal digits, and yield 0 when there is no digit. -/
def atoll (s : String) : Int :=
  let t := s.data.dropWhile isSpaceC
  let sr : Int × List Char :=
    if t.headD ' ' = '-' then (-1, t.tail)
    else if t.headD ' ' = '+' then (1, t.tail)
    else (1, t)
  wrap64 (sr.1 * digitsVal (sr.2.takeWhile (fun c => c.isDigit)))

/-- One metric sample handed to plugin_dispatch_values, as built by
iostats_submit, compression_submit and numusers_submit. -/
inductive Sample where
  | iostats (pinst : String) (tinst : Option String) (rx tx : Int)
  | compression (pinst : String) (tinst : Option String) (uncompressed compressed : Int)
  | numusers (pinst tinst : String) (value : Int)
deriving DecidableEq, Repr

/-- The four configuration booleans of the plugin. -/
structure Config where
  new_naming_schema : Bool
  collect_compression : Bool
  collect_user_count : Bool
  collect_individual_users : Bool
deriving DecidableEq, Repr

/-- Default values of the configuration booleans in the source. -/
def defaultConfig : Config :=
  { new_naming_schema := false
    collect_compression := true
    collect_user_count := false
    collect_individual_users := true }

/-- The lines a parser obtains from fgets before it returns NULL,
and whether that NULL was caused by a read error (ferror). -/
structure Stream where
  lines : List String
  readErr : Bool
deriving DecidableEq, Repr

/-- The eight accumulators of single_read. -/
structure SingleAcc where
  link_rx : Int
  link_tx : Int
  tun_rx : Int
  tun_tx : Int
  pre_compress : Int
  post_compress : Int
  pre_decompress : Int
  post_decompress : Int
deriving DecidableEq, Repr

/-- Initial accumulator values of single_read. -/
def singleAcc0 : SingleAcc := ⟨0, 0, 0, 0, 0, 0, 0, 0⟩

/-- One iteration of the single_read loop: lines that do not split
into exactly two fields are skipped, a recognized key overwrites its
accumulator with the atoll of the second field. -/
def single_line (acc : SingleAcc) (line : String) : SingleAcc :=
  match openvpn_strsplit line 4 with
  | [k, v] =>
    if k = "TUN/TAP read bytes" then { acc with tun_tx := atoll v }
    else if k = "TUN/TAP write bytes" then { acc with tun_rx := atoll v }
    else if k = "TCP/UDP read bytes" then { acc with link_rx := atoll v }
    else if k = "TCP/UDP write bytes" then { acc with link_tx := atoll v }
    else if k = "pre-compress bytes" then { acc with pre_compress := atoll v }
    else if k = "post-compress bytes" then { acc with post_compress := atoll v }
    else if k = "pre-decompress bytes" then { acc with pre_decompress := atoll v }
    else if k = "post-decompress bytes" then { acc with post_decompress := atoll v }
    else acc
  | _ => acc

/-- The accumulators after the whole single_read loop. -/
def single_acc (lines : List String) : SingleAcc :=
  lines.foldl single_line singleAcc0

/-- The overhead rx expression of single_read, in the exact grouping
of the source. -/
def overhead_rx (a : SingleAcc) : Int :=
  sub64 (add64 (sub64 a.link_rx a.pre_decompress) a.post_decompress) a.tun_rx

/-- The overhead tx expression of single_read, in the exact grouping
of the source. -/
def overhead_tx (a : SingleAcc) : Int :=
  sub64 (add64 (sub64 a.link_tx a.post_compress) a.pre_compress) a.tun_tx

/-- single_read: accumulate the recognized key lines, then emit the
traffic, overhead and (when enabled) compression samples and return
success.  The source contains no ferror check in this function, so
the read-error flag of the stream is not consulted. -/
def single_read (cfg : Config) (name : String) (st : Stream) : List Sample × Int :=
  let a := single_acc st.lines
  ([Sample.iostats name (some "traffic") a.link_rx a.link_tx,
    Sample.iostats name (some "overhead") (overhead_rx a) (overhead_tx a)] ++
    (if cfg.collect_compression then
      [Sample.compression name (some "data_in") a.post_decompress a.pre_decompress,
       Sample.compression name (some "data_out") a.pre_compress a.post_compress]
     else []), 0)

/-- The fixed version-1 column header line. -/
def V1HEADER : String :=
  "Common Name,Real Address,Bytes Received,Bytes Sent,Connected Since\n"

/-- Per-client emission shared by both multi-mode parsers: one
traffic sample when individual users are collected, named after the
source or after the client depending on the naming schema. -/
def emit_client (cfg : Config) (name cname : String) (rx tx : Int) : List Sample :=
  if cfg.collect_individual_users then
    (if cfg.new_naming_schema then [Sample.iostats name (some cname) rx tx]
     else [Sample.iostats cname none rx tx])
  else []

/-- Header-seeking state of multi1_read: skip lines until the fixed
version-1 header; a ROUTING TABLE line before the header ends the
loop with the header still missing (none). -/
def multi1_seek : List String → Option (List String)
  | [] => none
  | line :: rest =>
    if line = "ROUTING TABLE\n" then none
    else if line = V1HEADER then some rest
    else multi1_seek rest

/-- Client-reading state of multi1_read: emits one sample per row
with at least 4 fields, counts users, stops at a ROUTING TABLE line.
The boolean of the result tells whether the whole rest of the stream
was consumed (so that the error indicator of the stream applies). -/
def multi1_clients (cfg : Config) (name : String) :
    List String → List Sample × Int × Bool
  | [] => ([], 0, true)
  | line :: rest =>
    if line = "ROUTING TABLE\n" then ([], 0, false)
    else if line = V1HEADER then multi1_clients cfg name rest
    else
      let fields := openvpn_strsplit line 10
      if fields.length < 4 then multi1_clients cfg name rest
      else
        let s := emit_client cfg name (fields.getD 0 "")
          (atoll (fields.getD 2 "")) (atoll (fields.getD 3 ""))
        let u : Int := if cfg.collect_user_count then 1 else 0
        let r := multi1_clients cfg name rest
        (s ++ r.1, u + r.2.1, r.2.2)

/-- multi1_read: find the version-1 header, read the client rows,
then check ferror, check that the header was found, and finally emit
the user count when enabled. -/
def multi1_read (cfg : Config) (name : String) (st : Stream) : List Sample × Int :=
  match multi1_seek st.lines with
  | none => ([], -1)
  | some rest =>
    let r := multi1_clients cfg name rest
    if r.2.2 && st.readErr then (r.1, -1)
    else
      (r.1 ++ (if cfg.collect_user_count then [Sample.numusers name name r.2.1] else []), 0)

/-- The column scan of the multi2_read header row: fields with index
at least 2 are matched against the three column names, the matching
field index minus one becomes the data-row index; a later match
overwrites an earlier one; 0 means not found. -/
def scanCols (fields : List String) : Nat × Nat × Nat :=
  fields.enum.foldl
    (fun (acc : Nat × Nat × Nat) (p : Nat × String) =>
      if p.1 < 2 then acc
      else if p.2 = "Common Name" then (p.1 - 1, acc.2.1, acc.2.2)
      else if p.2 = "Bytes Received" then (acc.1, p.1 - 1, acc.2.2)
      else if p.2 = "Bytes Sent" then (acc.1, acc.2.1, p.1 - 1)
      else acc)
    (0, 0, 0)

/-- Header-seeking state of multi2_read: skip lines until a row whose
first two fields are HEADER and CLIENT_LIST, then resolve the three
column indices; when one of them stays 0 the loop is left with the
header not accepted (none).  On success the value carries the column
indices, the expected data-row field count (header fields minus one)
and the remaining lines. -/
def multi2_seek : List String → Option ((Nat × Nat × Nat) × Nat × List String)
  | [] => none
  | line :: rest =>
    let fields := openvpn_strsplit line 20
    if fields.length < 2 then multi2_seek rest
    else if fields.getD 0 "" ≠ "HEADER" then multi2_seek rest
    else if fields.getD 1 "" ≠ "CLIENT_LIST" then multi2_seek rest
    else
      let idx := scanCols fields
      if idx.1 = 0 ∨ idx.2.1 = 0 ∨ idx.2.2 = 0 then none
      else some (idx, fields.length - 1, rest)

/-- How the client-reading loop of multi2_read ended. -/
inductive M2Exit where
  | eof
  | sectionEnd
  | mismatch
deriving DecidableEq, Repr

/-- Client-reading state of multi2_read: a row without fields or not
led by CLIENT_LIST ends the section; a CLIENT_LIST row whose field
count differs from the expected column count aborts with a fields
count mismatch; otherwise the row is emitted through the resolved
column indices and counted. -/
def multi2_clients (cfg : Config) (name : String) (idx : Nat × Nat × Nat)
    (columns : Nat) : List String → List Sample × Int × M2Exit
  | [] => ([], 0, M2Exit.eof)
  | line :: rest =>
    let fields := openvpn_strsplit line 20
    if fields.length = 0 ∨ fields.getD 0 "" ≠ "CLIENT_LIST" then
      ([], 0, M2Exit.sectionEnd)
    else if fields.length ≠ columns then ([], 0, M2Exit.mismatch)
    else
      let s := emit_client cfg name (fields.getD idx.1 "")
        (atoll (fields.getD idx.2.1 "")) (atoll (fields.getD idx.2.2 ""))
      let u : Int := if cfg.collect_user_count then 1 else 0
      let r := multi2_clients cfg name idx columns rest
      (s ++ r.1, u + r.2.1, r.2.2)

/-- multi2_read: find and resolve the header, read the client rows;
a fields count mismatch returns failure at once (samples already
emitted stand); at end of stream ferror is consulted; the user count
is emitted on the success paths only. -/
def multi2_read (cfg : Config) (name : String) (st : Stream) : List Sample × Int :=
  match multi2_seek st.lines with
  | none => ([], -1)
  | some (idx, columns, rest) =>
    let r := multi2_clients cfg name idx columns rest
    match r.2.2 with
    | M2Exit.mismatch => (r.1, -1)
    | M2Exit.eof =>
      if st.readErr then (r.1, -1)
      else
        (r.1 ++ (if cfg.collect_user_count then [Sample.numusers name name r.2.1] else []), 0)
    | M2Exit.sectionEnd =>
      (r.1 ++ (if cfg.collect_user_count then [Sample.numusers name name r.2.1] else []), 0)

/-- Title of the single-endpoint status file, newline included as in
the source define. -/
def TITLE_SINGLE : String := "OpenVPN STATISTICS\n"

/-- Title of the version-1 multi-client status file. -/
def TITLE_V1 : String := "OpenVPN CLIENT LIST\n"

/-- Title token of the version-2/3 multi-client status file, matched
as a line prefix. -/
def TITLE_V2 : String := "TITLE"

/-- openvpn_read: a failed first read aborts the cycle; otherwise the
first line selects the parser by exact match against the two full
titles or by prefix match against TITLE, and an unknown first line
fails the cycle with nothing emitted. -/
def openvpn_read (cfg : Config) (name : String) (st : Stream) : List Sample × Int :=
  match st.lines with
  | [] => ([], -1)
  | first :: rest =>
    if first = TITLE_SINGLE then single_read cfg name ⟨rest, st.readErr⟩
    else if first = TITLE_V1 then multi1_read cfg name ⟨rest, st.readErr⟩
    else if TITLE_V2.data.isPrefixOf first.data then multi2_read cfg name ⟨rest, st.readErr⟩
    else ([], -1)

/-- One scheduled read cycle together with the configuration state it
leaves behind.  The parsers only read the configuration globals and
never assign them, so a cycle returns the configuration unchanged. -/
def openvpn_cycle (cfg : Config) (name : String) (st : Stream) :
    Config × (List Sample × Int) :=
  (cfg, openvpn_read cfg name st)

/-- Specification-side splitter used to state the tokenizer claim:
cut the line at every delimiter keeping empty segments, so that
discarding the empty segments afterwards is exactly what the claim
words say. -/
def splitSegs : List Char → List (List Char)
  | [] => [[]]
  | c :: cs =>
    if isDelim c then [] :: splitSegs cs
    else
      match splitSegs cs with
      | [] => [[c]]
      | s :: ss => (c :: s) :: ss

/-- The single-endpoint lines of Scenario A of the spec. -/
def scenarioA : List String :=
  ["TCP/UDP read bytes,1000\n",
   "TCP/UDP write bytes,2000\n",
   "TUN/TAP read bytes,1500\n",
   "TUN/TAP write bytes,900\n"]

/-- The version-2 lines of Scenario C of the spec. -/
def scenarioC : List String :=
  ["HEADER,CLIENT_LIST,Common Name,Real Address,Bytes Received,Bytes Sent\n",
   "CLIENT_LIST,clientB,5.6.7.8,300,400\n"]

/-- Scenario C with one more header and data column, so that the
field named Bytes Sent is not the last one on the header line. -/
def scenarioC2 : List String :=
  ["HEADER,CLIENT_LIST,Common Name,Real Address,Bytes Received,Bytes Sent,Connected Since\n",
   "CLIENT_LIST,clientB,5.6.7.8,300,400,now\n"]

theorem splitSegs_ne_nil (l : List Char) : splitSegs l ≠ [] := by
  cases l with
  | nil => simp [splitSegs]
  | cons c cs =>
    simp only [splitSegs]
    split
    · simp
    · split <;> simp

theorem strtokGo_eq (l : List Char) : ∀ cur : List Char,
    strtokGo l cur =
      ((cur.reverse ++ (splitSegs l).headD []) :: (splitSegs l).tail).filter
        (fun t => !t.isEmpty) := by
  induction l with
  | nil =>
    intro cur
    cases cur with
    | nil => simp [strtokGo, splitSegs]
    | cons a as => simp [strtokGo, splitSegs]
  | cons c cs ih =>
    intro cur
    rcases hs : splitSegs cs with _ | ⟨h0, t0⟩
    · exact absurd hs (splitSegs_ne_nil cs)
    · by_cases hc : isDelim c
      · cases cur with
        | nil => simp [strtokGo, splitSegs, hc, hs, ih]
        | cons a as => simp [strtokGo, splitSegs, hc, hs, ih]
      · have hrec := ih (c :: cur)
        rw [hs] at hrec
        simp only [strtokGo, hc, if_neg, Bool.false_eq_true, ite_false, hrec,
          List.reverse_cons, splitSegs, hs, List.headD_cons, List.tail_cons]
        simp [List.append_assoc]

theorem strtok_all_eq (l : List Char) :
    strtok_all l = (splitSegs l).filter (fun t => !t.isEmpty) := by
  have h := strtokGo_eq l []
  rcases hs : splitSegs l with _ | ⟨h0, t0⟩
  · exact absurd hs (splitSegs_ne_nil l)
  · rw [hs] at h
    simpa [strtok_all, hs] using h

theorem splitSegs_all_delim (l : List Char) (h : ∀ c ∈ l, isDelim c = true) :
    (splitSegs l).filter (fun t => !t.isEmpty) = [] := by
  induction l with
  | nil => simp [splitSegs]
  | cons c cs ih =>
    have hc : isDelim c = true := h c (by simp)
    simp [splitSegs, hc, ih (fun d hd => h d (by simp [hd]))]

/-- Claim C8: openvpn_strsplit splits the line on commas and tabs,
discards the empty tokens produced by adjacent delimiters, returns
the ordered non-empty tokens truncated to the first n entries, and
returns zero tokens for a blank or delimiter-only line. -/
theorem claim8_tokenizer (s : String) (n : Nat) :
    openvpn_strsplit s n =
      (((splitSegs s.data).filter (fun t => !t.isEmpty)).take n).map
        (fun t => String.mk t) ∧
    ((∀ c ∈ s.data, isDelim c = true) → openvpn_strsplit s n = []) := by
  constructor
  · rw [openvpn_strsplit, strtok_all_eq]
  · intro h
    rw [openvpn_strsplit, strtok_all_eq, splitSegs_all_delim s.data h]
    simp

/-- Witness for C8 at a delimiter-only line. -/
theorem claim8_witness : openvpn_strsplit ",,\t" 5 = [] :=
  (claim8_tokenizer ",,\t" 5).2 (by decide)

/-- Claim C7: a read cycle leaves the configuration state unchanged,
and a second cycle on the same stream emits the same samples and
returns the same status. -/
theorem claim7_idempotent (cfg : Config) (name : String) (st : Stream) :
    (openvpn_cycle cfg name st).1 = cfg ∧
    (openvpn_cycle (openvpn_cycle cfg name st).1 name st).2 =
      (openvpn_cycle cfg name st).2 :=
  ⟨rfl, rfl⟩

/-- Counterexample to claim C2: a stream that ends in a read error
still gets the full end-of-file emission from single_read, and the
pass returns success, not failure. -/
theorem claim2_counterexample :
    single_read defaultConfig "vpn0" ⟨["TCP/UDP read bytes,1000\n"], true⟩ =
      ([Sample.iostats "vpn0" (some "traffic") 1000 0,
        Sample.iostats "vpn0" (some "overhead") 1000 0,
        Sample.compression "vpn0" (some "data_in") 0 0,
        Sample.compression "vpn0" (some "data_out") 0 0], 0) := by decide

/-- Claim C2 (amended): single_read never consults the stream error
indicator; a read error merely ends the line loop, the end-of-file
emission still takes place with the values accumulated so far, and
the pass returns success. -/
theorem claim2_read_error_ignored (cfg : Config) (name : String)
    (lines : List String) (e : Bool) :
    single_read cfg name ⟨lines, e⟩ = single_read cfg name ⟨lines, false⟩ ∧
    (single_read cfg name ⟨lines, e⟩).2 = 0 ∧
    2 ≤ (single_read cfg name ⟨lines, e⟩).1.length := by
  refine ⟨rfl, rfl, ?_⟩
  cases hc : cfg.collect_compression <;> simp [single_read, hc]

/-- Counterexample to claim C3: on the Scenario A lines the emitted
overhead sample is (100, 500), not (-500, 1100): the TUN/TAP read
line sets tun_tx and the TUN/TAP write line sets tun_rx. -/
theorem claim3_counterexample :
    (single_read defaultConfig "vpn0" ⟨scenarioA, false⟩).1[1]? =
      some (Sample.iostats "vpn0" (some "overhead") 100 500) ∧
    ¬ (single_read defaultConfig "vpn0" ⟨scenarioA, false⟩).1[1]? =
      some (Sample.iostats "vpn0" (some "overhead") (-500) 1100) := by decide

/-- Claim C3 (amended): the overhead sample always equals the stated
left-to-right grouping over the 64-bit counter type applied to the
accumulated counters; on the Scenario A lines the accumulators come
out as link_rx 1000, link_tx 2000, tun_rx 900, tun_tx 1500 (TUN/TAP
read bytes feeds tun_tx and TUN/TAP write bytes feeds tun_rx), so
the emitted overhead sample is (100, 500). -/
theorem claim3_overhead_formula (cfg : Config) (name : String) (st : Stream) :
    ((single_read cfg name st).1)[1]? =
      some (Sample.iostats name (some "overhead")
        (sub64 (add64 (sub64 (single_acc st.lines).link_rx
              (single_acc st.lines).pre_decompress)
            (single_acc st.lines).post_decompress)
          (single_acc st.lines).tun_rx)
        (sub64 (add64 (sub64 (single_acc st.lines).link_tx
              (single_acc st.lines).post_compress)
            (single_acc st.lines).pre_compress)
          (single_acc st.lines).tun_tx)) ∧
    ((single_read defaultConfig "vpn0" ⟨scenarioA, false⟩).1[1]? =
        some (Sample.iostats "vpn0" (some "overhead") 100 500) ∧
      single_acc scenarioA =
        { link_rx := 1000, link_tx := 2000, tun_rx := 900, tun_tx := 1500,
          pre_compress := 0, post_compress := 0,
          pre_decompress := 0, post_decompress := 0 }) := by
  constructor
  · simp [single_read, overhead_rx, overhead_tx]
  · constructor <;> decide

theorem titleV2_ne_titles {t : String}
    (ht : TITLE_V2.data.isPrefixOf t.data = true) :
    t ≠ TITLE_SINGLE ∧ t ≠ TITLE_V1 := by
  constructor <;> intro he <;> rw [he] at ht <;> exact absurd ht (by decide)

/-- Counterexample to claim C1: on the Scenario C lines the column
scan resolves Common Name to 1 and Bytes Received to 3 (not 2), the
last header field keeps its trailing newline and so Bytes Sent stays
unresolved, and the parser emits no sample at all. -/
theorem claim1_counterexample :
    scanCols (openvpn_strsplit
        "HEADER,CLIENT_LIST,Common Name,Real Address,Bytes Received,Bytes Sent\n" 20) =
      (1, 3, 0) ∧
    multi2_read defaultConfig "vpn0" ⟨scenarioC, false⟩ = ([], -1) := by decide

/-- Claim C1 (amended): on the Scenario C header the column map
resolves Common Name to data-row index 1 and Bytes Received to 3;
the header field for Bytes Sent is read together with the trailing
newline and matches nothing, so the pass aborts as an unrecognized
format with no emission.  When a further column follows Bytes Sent
on the header line, the data row emits exactly one traffic sample
for clientB with rx 300 and tx 400. -/
theorem claim1_amended (cfg : Config) (name : String) :
    scanCols (openvpn_strsplit (scenarioC.getD 0 "") 20) = (1, 3, 0) ∧
    multi2_read cfg name ⟨scenarioC, false⟩ = ([], -1) ∧
    multi2_read defaultConfig "vpn0" ⟨scenarioC2, false⟩ =
      ([Sample.iostats "clientB" none 300 400], 0) := by
  refine ⟨by decide, ?_, by decide⟩
  have hseek : multi2_seek scenarioC = none := by decide
  simp [multi2_read, hseek]

/-- Claim C5: a status file holding only a recognized title line
crashes no parser; the single-endpoint parser emits the zero-valued
traffic and overhead aggregates (and zero-valued compression samples
when enabled), while both multi-client parsers fail with nothing
emitted because the header is never found. -/
theorem claim5_title_only (cfg : Config) (name t : String)
    (ht : TITLE_V2.data.isPrefixOf t.data = true) :
    openvpn_read cfg name ⟨[TITLE_SINGLE], false⟩ =
      ([Sample.iostats name (some "traffic") 0 0,
        Sample.iostats name (some "overhead") 0 0] ++
        (if cfg.collect_compression then
          [Sample.compression name (some "data_in") 0 0,
           Sample.compression name (some "data_out") 0 0]
         else []), 0) ∧
    openvpn_read cfg name ⟨[TITLE_V1], false⟩ = ([], -1) ∧
    openvpn_read cfg name ⟨[t], false⟩ = ([], -1) := by
  obtain ⟨hne1, hne2⟩ := titleV2_ne_titles ht
  refine ⟨?_, ?_, ?_⟩
  · have e1 : overhead_rx singleAcc0 = 0 := by decide
    have e2 : overhead_tx singleAcc0 = 0 := by decide
    have e3 : singleAcc0.link_rx = 0 := rfl
    have e4 : singleAcc0.link_tx = 0 := rfl
    have e5 : singleAcc0.pre_compress = 0 := rfl
    have e6 : singleAcc0.post_compress = 0 := rfl
    have e7 : singleAcc0.pre_decompress = 0 := rfl
    have e8 : singleAcc0.post_decompress = 0 := rfl
    simp [openvpn_read, single_read, single_acc, e1, e2, e3, e4, e5, e6, e7, e8]
  · have hv : TITLE_V1 ≠ TITLE_SINGLE := by decide
    simp [openvpn_read, hv, multi1_read, multi1_seek]
  · simp [openvpn_read, hne1, hne2, ht, multi2_read, multi2_seek]

/-- Witness for C5 with a concrete TITLE-prefixed first line. -/
theorem claim5_witness :
    openvpn_read defaultConfig "vpn0" ⟨["TITLE foo\n"], false⟩ = ([], -1) :=
  (claim5_title_only defaultConfig "vpn0" "TITLE foo\n" (by decide)).2.2

/-- Claim C6: dispatch of openvpn_read depends on the first line
only; the full title with newline selects the single-endpoint or the
version-1 parser, a TITLE prefix selects the version-2/3 parser, and
any other first line fails the cycle with no parser invoked and no
sample emitted. -/
theorem claim6_detector_dispatch (cfg : Config) (name : String)
    (first : String) (rest : List String) (e : Bool) :
    (first = TITLE_SINGLE →
      openvpn_read cfg name ⟨first :: rest, e⟩ = single_read cfg name ⟨rest, e⟩) ∧
    (first = TITLE_V1 →
      openvpn_read cfg name ⟨first :: rest, e⟩ = multi1_read cfg name ⟨rest, e⟩) ∧
    (TITLE_V2.data.isPrefixOf first.data = true →
      openvpn_read cfg name ⟨first :: rest, e⟩ = multi2_read cfg name ⟨rest, e⟩) ∧
    (first ≠ TITLE_SINGLE → first ≠ TITLE_V1 →
      TITLE_V2.data.isPrefixOf first.data = false →
      openvpn_read cfg name ⟨first :: rest, e⟩ = ([], -1)) := by
  refine ⟨?_, ?_, ?_, ?_⟩
  · intro h
    simp [openvpn_read, h]
  · intro h
    have hv : TITLE_V1 ≠ TITLE_SINGLE := by decide
    simp [openvpn_read, h, hv]
  · intro h
    obtain ⟨hne1, hne2⟩ := titleV2_ne_titles h
    simp [openvpn_read, hne1, hne2, h]
  · intro h1 h2 h3
    simp [openvpn_read, h1, h2, h3]

/-- Witness for C6 at an unknown first line. -/
theorem claim6_witness :
    openvpn_read defaultConfig "vpn0" ⟨["BOGUS\n"], false⟩ = ([], -1) :=
  (claim6_detector_dispatch defaultConfig "vpn0" "BOGUS\n" [] false).2.2.2
    (by decide) (by decide) (by decide)

/-- Claim C9: the exact title comparisons include the trailing
newline, so a first line reading OpenVPN STATISTICS or OpenVPN
CLIENT LIST without a final newline selects nothing and the cycle
fails as an unrecognized format, while the TITLE prefix match does
not need the newline. -/
theorem claim9_missing_newline (cfg : Config) (name : String)
    (rest : List String) (e : Bool) (t : String)
    (ht : TITLE_V2.data.isPrefixOf t.data = true) :
    openvpn_read cfg name ⟨"OpenVPN STATISTICS" :: rest, e⟩ = ([], -1) ∧
    openvpn_read cfg name ⟨"OpenVPN CLIENT LIST" :: rest, e⟩ = ([], -1) ∧
    openvpn_read cfg name ⟨t :: rest, e⟩ = multi2_read cfg name ⟨rest, e⟩ := by
  obtain ⟨hne1, hne2⟩ := titleV2_ne_titles ht
  refine ⟨?_, ?_, ?_⟩
  · have h1 : ("OpenVPN STATISTICS" : String) ≠ TITLE_SINGLE := by decide
    have h2 : ("OpenVPN STATISTICS" : String) ≠ TITLE_V1 := by decide
    have h3 : TITLE_V2.data.isPrefixOf ("OpenVPN STATISTICS" : String).data = false := by
      decide
    simp [openvpn_read, h1, h2, h3]
  · have h1 : ("OpenVPN CLIENT LIST" : String) ≠ TITLE_SINGLE := by decide
    have h2 : ("OpenVPN CLIENT LIST" : String) ≠ TITLE_V1 := by decide
    have h3 : TITLE_V2.data.isPrefixOf ("OpenVPN CLIENT LIST" : String).data = false := by
      decide
    simp [openvpn_read, h1, h2, h3]
  · simp [openvpn_read, hne1, hne2, ht]

/-- Witness for C9 at a one-line file without final newline. -/
theorem claim9_witness :
    openvpn_read defaultConfig "vpn0" ⟨["OpenVPN STATISTICS"], false⟩ = ([], -1) :=
  (claim9_missing_newline defaultConfig "vpn0" [] false "TITLE" (by decide)).1

theorem takeWhile_digits_nil (l : List Char) (h : ∀ c ∈ l, c.isDigit = false) :
    l.takeWhile (fun c => c.isDigit) = [] := by
  cases l with
  | nil => rfl
  | cons c cs =>
    have hc := h c (List.mem_cons_self c cs)
    simp [List.takeWhile_cons, hc]

theorem atoll_no_digit (s : String) (h : ∀ c ∈ s.data, c.isDigit = false) :
    atoll s = 0 := by
  have hsub : ∀ c ∈ s.data.dropWhile isSpaceC, c.isDigit = false := fun c hc =>
    h c ((List.dropWhile_sublist isSpaceC).subset hc)
  have htail : ∀ c ∈ (s.data.dropWhile isSpaceC).tail, c.isDigit = false := fun c hc =>
    hsub c (List.mem_of_mem_tail hc)
  have hw : wrap64 0 = 0 := by decide
  have hd0 : digitsVal [] = 0 := rfl
  simp only [atoll]
  split_ifs <;>
    simp [takeWhile_digits_nil _ htail, takeWhile_digits_nil _ hsub, hd0, hw]

theorem multi2_clients_mismatch (cfg : Config) (name : String)
    (idx : Nat × Nat × Nat) (columns : Nat) (bad : String) (rest : List String)
    (hb0 : (openvpn_strsplit bad 20).getD 0 "" = "CLIENT_LIST")
    (hbn : (openvpn_strsplit bad 20).length ≠ columns) :
    ∀ good : List String,
      (∀ r ∈ good, (openvpn_strsplit r 20).getD 0 "" = "CLIENT_LIST" ∧
          (openvpn_strsplit r 20).length = columns) →
      ∃ u : Int,
        multi2_clients cfg name idx columns (good ++ bad :: rest) =
          ((good.map (fun r =>
              emit_client cfg name ((openvpn_strsplit r 20).getD idx.1 "")
                (atoll ((openvpn_strsplit r 20).getD idx.2.1 ""))
                (atoll ((openvpn_strsplit r 20).getD idx.2.2 "")))).flatten,
            u, M2Exit.mismatch) := by
  intro good
  induction good with
  | nil =>
    intro _
    refine ⟨0, ?_⟩
    have hne0 : ¬ (openvpn_strsplit bad 20).length = 0 := by
      intro h0
      rw [List.length_eq_zero.mp h0] at hb0
      simp at hb0
    simp only [List.nil_append, multi2_clients, List.map_nil]
    rw [if_neg (by push_neg; exact ⟨hne0, by simpa using hb0⟩), if_pos hbn]
    simp
  | cons g gs ih =>
    intro hg
    obtain ⟨hg0, hgn⟩ := hg g (List.mem_cons_self g gs)
    obtain ⟨u, hu⟩ := ih (fun r hr => hg r (List.mem_cons_of_mem g hr))
    refine ⟨(if cfg.collect_user_count then 1 else 0) + u, ?_⟩
    have hne0 : ¬ (openvpn_strsplit g 20).length = 0 := by
      intro h0
      rw [List.length_eq_zero.mp h0] at hg0
      simp at hg0
    simp only [List.cons_append, multi2_clients]
    rw [if_neg (by push_neg; exact ⟨hne0, by simpa using hg0⟩), if_neg (by simp [hgn])]
    simp only [List.append_eq]
    rw [hu]
    simp

/-- Claim C4: once multi2_read has accepted a header expecting a
given data-row field count, a CLIENT_LIST row whose field count is
one less or one more aborts the pass with failure: the rows behind
it are never processed, nothing further is emitted in that cycle,
and the samples of the earlier well-formed rows stand. -/
theorem claim4_field_count_mismatch (cfg : Config) (name : String) (st : Stream)
    (idx : Nat × Nat × Nat) (columns : Nat)
    (good : List String) (bad : String) (rest : List String)
    (hseek : multi2_seek st.lines = some (idx, columns, good ++ bad :: rest))
    (hgood : ∀ r ∈ good, (openvpn_strsplit r 20).getD 0 "" = "CLIENT_LIST" ∧
        (openvpn_strsplit r 20).length = columns)
    (hb0 : (openvpn_strsplit bad 20).getD 0 "" = "CLIENT_LIST")
    (hbn : (openvpn_strsplit bad 20).length + 1 = columns ∨
        (openvpn_strsplit bad 20).length = columns + 1) :
    multi2_read cfg name st =
      ((good.map (fun r =>
          emit_client cfg name ((openvpn_strsplit r 20).getD idx.1 "")
            (atoll ((openvpn_strsplit r 20).getD idx.2.1 ""))
            (atoll ((openvpn_strsplit r 20).getD idx.2.2 "")))).flatten, -1) := by
  have hne : (openvpn_strsplit bad 20).length ≠ columns := by omega
  obtain ⟨u, hu⟩ :=
    multi2_clients_mismatch cfg name idx columns bad rest hb0 hne good hgood
  simp [multi2_read, hseek, hu]

/-- Witness for C4: one well-formed data row, then a row with one
field too few. -/
theorem claim4_witness :
    multi2_read defaultConfig "vpn0"
      ⟨["HEADER,CLIENT_LIST,Common Name,Real Address,Bytes Received,Bytes Sent,Connected Since\n",
        "CLIENT_LIST,clientB,5.6.7.8,300,400,now\n",
        "CLIENT_LIST,cl,ip,1,2\n"], false⟩ =
      ([Sample.iostats "clientB" none 300 400], -1) := by
  have h := claim4_field_count_mismatch defaultConfig "vpn0"
    ⟨["HEADER,CLIENT_LIST,Common Name,Real Address,Bytes Received,Bytes Sent,Connected Since\n",
      "CLIENT_LIST,clientB,5.6.7.8,300,400,now\n",
      "CLIENT_LIST,cl,ip,1,2\n"], false⟩
    (1, 3, 4) 6 ["CLIENT_LIST,clientB,5.6.7.8,300,400,now\n"]
    "CLIENT_LIST,cl,ip,1,2\n" []
    (by decide) (by decide) (by decide) (by decide)
  rw [h]
  decide

/-- Claim C10: malformed numeric fields are never a parse error: a
value field converts through the longest leading decimal prefix
after optional white space and sign, a field with no digits
contributes 0, and in all three parsers a non-numeric value field
neither aborts the cycle nor suppresses the emission of its own
sample. -/
theorem claim10_malformed_numeric (cfg : Config) (name : String) (s : String)
    (hnd : ∀ c ∈ s.data, c.isDigit = false)
    (line1 : String) (rest1 : List String)
    (h1a : line1 ≠ "ROUTING TABLE\n") (h1b : line1 ≠ V1HEADER)
    (h1c : 4 ≤ (openvpn_strsplit line1 10).length)
    (line2 : String) (rest2 : List String)
    (idx : Nat × Nat × Nat) (columns : Nat)
    (h2a : (openvpn_strsplit line2 20).getD 0 "" = "CLIENT_LIST")
    (h2b : (openvpn_strsplit line2 20).length = columns)
    (lines : List String) (e : Bool) :
    atoll s = 0 ∧
    (atoll "12abc" = 12 ∧ atoll " -42xyz" = -42 ∧ atoll "400\n" = 400 ∧
      atoll "" = 0) ∧
    (single_read cfg name ⟨lines, e⟩).2 = 0 ∧
    multi1_clients cfg name (line1 :: rest1) =
      (emit_client cfg name ((openvpn_strsplit line1 10).getD 0 "")
          (atoll ((openvpn_strsplit line1 10).getD 2 ""))
          (atoll ((openvpn_strsplit line1 10).getD 3 "")) ++
        (multi1_clients cfg name rest1).1,
        (if cfg.collect_user_count then 1 else 0) +
          (multi1_clients cfg name rest1).2.1,
        (multi1_clients cfg name rest1).2.2) ∧
    multi2_clients cfg name idx columns (line2 :: rest2) =
      (emit_client cfg name ((openvpn_strsplit line2 20).getD idx.1 "")
          (atoll ((openvpn_strsplit line2 20).getD idx.2.1 ""))
          (atoll ((openvpn_strsplit line2 20).getD idx.2.2 "")) ++
        (multi2_clients cfg name idx columns rest2).1,
        (if cfg.collect_user_count then 1 else 0) +
          (multi2_clients cfg name idx columns rest2).2.1,
        (multi2_clients cfg name idx columns rest2).2.2) := by
  have hne0 : ¬ (openvpn_strsplit line2 20).length = 0 := by
    intro h0
    rw [List.length_eq_zero.mp h0] at h2a
    simp at h2a
  refine ⟨atoll_no_digit s hnd, by decide, rfl, ?_, ?_⟩
  · simp only [multi1_clients]
    rw [if_neg h1a, if_neg h1b,
      if_neg (by omega : ¬ (openvpn_strsplit line1 10).length < 4)]
  · simp only [multi2_clients]
    rw [if_neg (by push_neg; exact ⟨hne0, by simpa using h2a⟩), if_neg (by simp [h2b])]

/-- Witness for C10: a digit-free field and a row whose byte fields
are partially numeric and non-numeric. -/
theorem claim10_witness :
    atoll "abc" = 0 ∧
    multi1_clients defaultConfig "vpn0" ["clientX,1.2.3.4,12abc,xyz\n"] =
      ([Sample.iostats "clientX" none 12 0], 0, true) := by
  have h := claim10_malformed_numeric defaultConfig "vpn0" "abc" (by decide)
    "clientX,1.2.3.4,12abc,xyz\n" [] (by decide) (by decide) (by decide)
    "CLIENT_LIST,c,ip,99zz\n" [] (1, 2, 3) 4 (by decide) (by decide) [] false
  refine ⟨h.1, ?_⟩
  rw [h.2.2.2.1]
  decide

end Collectd
